import Mathlib

/-! Verification development for the ui-workflow element-resolution,
outcome-classification and capture subsystems.

Python string and regex operations used by the source are embedded as
executable functions over `List Char`. Fractional timeout arithmetic
(`timeout_ms * 0.6` and friends) is modelled exactly over `ℚ`. The live
page is modelled as a predicate `String → ℚ → Bool` saying whether a
selector resolves to a visible element within a given timeout. -/

/-- Python whitespace class (the regex backslash-s set). -/
def pyWsChar (c : Char) : Bool :=
  c == ' ' || c == '\t' || c == '\n' || c == '\r' || c == '\x0b' || c == '\x0c'

/-- Python str.strip() on a character list. -/
def pyStripL (l : List Char) : List Char :=
  ((l.dropWhile pyWsChar).reverse.dropWhile pyWsChar).reverse

/-- Python str.strip(). -/
def pyStrip (s : String) : String := (pyStripL s.toList).asString

/-- Python str.lower() (ASCII, as in the keyword tables the source matches). -/
def pyLower (s : String) : String := (s.data.map Char.toLower).asString

/-- Python str.upper(). -/
def pyUpper (s : String) : String := (s.data.map Char.toUpper).asString

/-- Python str.startswith(pre). -/
def strStarts (s pre : String) : Bool := pre.data.isPrefixOf s.data

/-- Python sep.join(parts). -/
def pyJoin (sep : String) (parts : List String) : String :=
  (List.intercalate sep.data (parts.map String.data)).asString

def splitOnPred (p : Char → Bool) : List Char → List (List Char)
  | [] => [[]]
  | c :: rest =>
    if p c then [] :: splitOnPred p rest
    else
      match splitOnPred p rest with
      | [] => [[c]]
      | g :: gs => (c :: g) :: gs

/-- Python s.split(sep) for a multi-character separator, with fuel. -/
def splitOnStrGo (sep : List Char) : ℕ → List Char → List (List Char)
  | 0, l => [l]
  | _ + 1, [] => [[]]
  | fuel + 1, c :: rest =>
    if sep.isPrefixOf (c :: rest) && !sep.isEmpty then
      [] :: splitOnStrGo sep fuel ((c :: rest).drop sep.length)
    else
      match splitOnStrGo sep fuel rest with
      | [] => [[c]]
      | g :: gs => (c :: g) :: gs

def pySplitOnStr (s sep : String) : List String :=
  (splitOnStrGo sep.data s.data.length s.data).map List.asString

/-- Python s.replace(pat, ''): remove every occurrence, left to right. -/
def pyRemoveAllGo (pat : List Char) : ℕ → List Char → List Char
  | 0, l => l
  | _ + 1, [] => []
  | fuel + 1, c :: rest =>
    if pat.isPrefixOf (c :: rest) && !pat.isEmpty then
      pyRemoveAllGo pat fuel ((c :: rest).drop pat.length)
    else c :: pyRemoveAllGo pat fuel rest

def pyRemoveAll (s pat : String) : String := (pyRemoveAllGo pat.data s.data.length s.data).asString

/-- Python str.split(sep) semantics on character lists (keeps empty pieces). -/
def splitOnChar (sep : Char) : List Char → List (List Char)
  | [] => [[]]
  | c :: rest =>
    if c == sep then [] :: splitOnChar sep rest
    else
      match splitOnChar sep rest with
      | [] => [[c]]
      | g :: gs => (c :: g) :: gs

/-- Python content.split(newline). -/
def splitLines (s : String) : List String := (splitOnChar '\n' s.toList).map List.asString

/-- Whether `needle` occurs as a contiguous sublist of the second argument. -/
def hasSubL (needle : List Char) : List Char → Bool
  | [] => needle.isEmpty
  | c :: rest => needle.isPrefixOf (c :: rest) || hasSubL needle rest

/-- Python `needle in hay` (case sensitive substring test). -/
def containsSub (hay needle : String) : Bool := hasSubL needle.toList hay.toList

/-- Case-insensitive substring test (Python `x in s.lower()` with lowercase x). -/
def containsCI (hay needle : String) : Bool := containsSub (pyLower hay) (pyLower needle)

/-- Case-insensitive prefix test, used to model `re.IGNORECASE` literals. -/
def ciStarts : List Char → List Char → Bool
  | [], _ => true
  | _ :: _, [] => false
  | a :: as, b :: bs => (a.toLower == b.toLower) && ciStarts as bs

/-- Drop everything up to and including the first occurrence of `needle`. -/
def dropAfterFirst (needle : List Char) : List Char → Option (List Char)
  | [] => if needle.isEmpty then some [] else none
  | c :: rest =>
    if needle.isPrefixOf (c :: rest) then some ((c :: rest).drop needle.length)
    else dropAfterFirst needle rest

/-- The literals occur in order inside the text: the semantics of a regex
`a.*b.*c` search restricted to one line. -/
def inOrderSub : List Char → List (List Char) → Bool
  | _, [] => true
  | hay, n :: ns =>
    match dropAfterFirst n hay with
    | some rest => inOrderSub rest ns
    | none => false

/-- Python dict.fromkeys de-duplication keeping first occurrences. -/
def pyDedup (l : List String) : List String :=
  l.foldl (fun acc x => if acc.contains x then acc else acc ++ [x]) []

/-- Python s[:n]. -/
def pyTake (s : String) (n : ℕ) : String := (s.toList.take n).asString

/-- Python str.split() with no argument: split on whitespace runs, no empties. -/
def pySplitWs (s : String) : List String :=
  ((splitOnPred pyWsChar s.data).map List.asString).filter (fun w => w != "")

/-- Python truthiness of an optional string (None and the empty string are falsy). -/
def optTruthy : Option String → Option String
  | some s => if s == "" then none else some s
  | none => none

/-! ## controller/utils.py -/

/-- The `params` object probed by `get_best_element_handle` and friends
(attributes of a workflow step schema; an absent or None attribute is `none`). -/
structure StepParams where
  primarySelector : Option String := none
  semanticSelector : Option String := none
  fallbackSelectors : Option (List String) := none
  xpath : Option String := none
  elementTag : Option String := none
  elementText : Option String := none
  cssSelector : Option String := none
deriving DecidableEq

def isQuote (c : Char) : Bool := c == '"' || c == '\''

/-- One attempt of the regex `\[attr\*?=['"]([^'"]*)['"]` at the head of the
text: the opener, an optional star, an equals sign, a quote, a possibly empty
run of non-quote characters, and a closing quote. -/
def attrCaptureAt (opener : List Char) (h : List Char) : Option String :=
  if opener.isPrefixOf h then
    let a1 := h.drop opener.length
    let a2 := match a1 with
      | '*' :: t => t
      | t => t
    match a2 with
    | '=' :: a3 =>
      match a3 with
      | q :: a4 =>
        if isQuote q then
          let run := a4.takeWhile (fun ch => !(isQuote ch))
          match a4.drop run.length with
          | q2 :: _ => if isQuote q2 then some run.asString else none
          | [] => none
        else none
      | [] => none
    | _ => none
  else none

def attrCaptureGo (opener : List Char) : List Char → Option String
  | [] => none
  | c :: rest =>
    match attrCaptureAt opener (c :: rest) with
    | some v => some v
    | none => attrCaptureGo opener rest

/-- `re.search(rf'\[{attr}\*?=[\'"]([^\'"]*)[\'"]', s)`, returning group 1. -/
def findAttrCapture (attr : String) (s : String) : Option String :=
  attrCaptureGo ("[" ++ attr).toList s.toList

/-- One attempt of the regex `\[attr="([^"]+)"\]` (double quotes, non-empty
capture) at the head of the text. -/
def dqCaptureAt (opener : List Char) (h : List Char) : Option String :=
  if opener.isPrefixOf h then
    let a := h.drop opener.length
    let run := a.takeWhile (fun ch => ch != '"')
    if run.isEmpty then none
    else
      match a.drop run.length with
      | '"' :: ']' :: _ => some run.asString
      | _ => none
  else none

def dqCaptureGo (opener : List Char) : List Char → Option String
  | [] => none
  | c :: rest =>
    match dqCaptureAt opener (c :: rest) with
    | some v => some v
    | none => dqCaptureGo opener rest

/-- `re.search(rf'\[{attr}="([^"]+)"\]', s)`, returning group 1. -/
def findBracketDQ (attr : String) (s : String) : Option String :=
  dqCaptureGo ("[" ++ attr ++ "=\"").toList s.toList

def tagFromParams (params : Option StepParams) : String :=
  match params with
  | some p =>
    match optTruthy p.elementTag with
    | some t => pyLower t
    | none => ""
  | none => ""

/-- utils.extract_element_tag: the leading `[a-zA-Z][a-zA-Z0-9]*` run of the
selector, lowercased, else the params' elementTag, else the empty string. -/
def extract_element_tag (selector : String) (params : Option StepParams) : String :=
  match selector.toList with
  | c :: rest =>
    if c.isAlpha then pyLower (c :: rest.takeWhile (fun ch => ch.isAlpha || ch.isDigit)).asString
    else tagFromParams params
  | [] => tagFromParams params

def classCharB (c : Char) : Bool := c.isAlpha || c.isDigit || c == '_' || c == '-'

/-- `re.findall(r'\.([a-zA-Z0-9_-]+)', s)` with fuel for termination. -/
def classTokensGo : ℕ → List Char → List String
  | 0, _ => []
  | _, [] => []
  | fuel + 1, c :: rest =>
    if c == '.' then
      let run := rest.takeWhile classCharB
      if run.isEmpty then classTokensGo fuel rest
      else run.asString :: classTokensGo fuel (rest.drop run.length)
    else classTokensGo fuel rest

def classTokens (s : String) : List String := classTokensGo s.toList.length s.toList

def stateKeywords : List String := ["focus", "hover", "active", "selected", "checked", "disabled"]

/-- utils.extract_stable_classes: all class tokens of the selector except those
containing a state keyword as a substring (case-insensitively). -/
def extract_stable_classes (selector : String) : List String :=
  (classTokens selector).filter
    (fun cls => !(stateKeywords.any (fun st => containsSub (pyLower cls) st)))

/-- The lazy search for `['"]\]` that closes one `\[id=['"].*?['"]\]` span
(a dot does not match a newline). Returns the text after the span. -/
def idSpanClose : List Char → Option (List Char)
  | [] => none
  | c :: rest =>
    if c == '\n' then none
    else if isQuote c then
      match rest with
      | ']' :: r2 => some r2
      | _ => idSpanClose rest
    else idSpanClose rest

/-- `re.sub(r'\[id=[\'"].*?[\'"]\]', '', s)` with fuel for termination. -/
def removeIdSpansGo : ℕ → List Char → List Char
  | 0, l => l
  | _, [] => []
  | fuel + 1, c :: rest =>
    if ("[id=".toList).isPrefixOf (c :: rest) then
      match (c :: rest).drop 4 with
      | q :: r2 =>
        if isQuote q then
          match idSpanClose r2 with
          | some rem => removeIdSpansGo fuel rem
          | none => c :: removeIdSpansGo fuel rest
        else c :: removeIdSpansGo fuel rest
      | [] => c :: removeIdSpansGo fuel rest
    else c :: removeIdSpansGo fuel rest

def removeIdSpans (s : String) : String := (removeIdSpansGo s.toList.length s.toList).asString

def attributesToCheck : List String :=
  ["placeholder", "aria-label", "name", "title", "role", "data-testid"]

/-- utils.generate_stable_selectors. -/
def generate_stable_selectors (selector : String) (params : Option StepParams) : List String :=
  let element_tag := extract_element_tag selector params
  let classes := extract_stable_classes selector
  let part1 := attributesToCheck.foldl (fun acc attr =>
    match findAttrCapture attr selector with
    | some v =>
      if element_tag != "" then acc ++ [element_tag ++ "[" ++ attr ++ "*=\"" ++ v ++ "\"]"]
      else acc
    | none => acc) []
  let part2 := attributesToCheck.foldl (fun acc attr =>
    match findAttrCapture attr selector with
    | some v =>
      if !classes.isEmpty && element_tag != "" then
        acc ++ [element_tag ++ "." ++ pyJoin "." classes ++ "[" ++ attr ++ "*=\"" ++ v ++ "\"]"]
      else acc
    | none => acc) []
  let part3 :=
    if element_tag != "" && !classes.isEmpty then [element_tag ++ "." ++ pyJoin "." classes]
    else []
  let part4a := if containsSub selector "[id=" then [removeIdSpans selector] else []
  let part4b := ([".focus-visible", ".hover", ".active", ".focus", ":focus"]).foldl
    (fun acc st => if containsSub selector st then acc ++ [pyRemoveAll selector st] else acc) []
  let part5 :=
    match params with
    | some p =>
      match optTruthy p.elementTag, optTruthy p.elementText with
      | some tag, some txt => if pyStrip txt != "" then [tag ++ ":has-text('" ++ txt ++ "')"] else []
      | _, _ => []
    | none => []
  pyDedup (part1 ++ part2 ++ part3 ++ part4a ++ part4b ++ part5)

/-- utils.optimize_complex_selector. -/
def optimize_complex_selector (selector : String) (params : Option StepParams) : Option String :=
  if selector == "" then none
  else
    match findBracketDQ "id" selector with
    | some v => some ("#" ++ v)
    | none =>
      match findBracketDQ "name" selector with
      | some v =>
        let tag0 := extract_element_tag selector params
        let tag := if tag0 == "" then "input" else tag0
        some (tag ++ "[name='" ++ v ++ "']")
      | none =>
        match findBracketDQ "data-cy" selector with
        | some v => some ("[data-cy='" ++ v ++ "']")
        | none =>
          match findBracketDQ "data-testid" selector with
          | some v => some ("[data-testid='" ++ v ++ "']")
          | none =>
            if containsSub selector "nth-of-type" && selector.length > 100 then
              let parts := pySplitOnStr selector " > "
              if parts.length > 3 then some (pyJoin " > " (parts.drop (parts.length - 3)))
              else none
            else none

def xpathAttrs : List String := ["placeholder", "aria-label", "title", "name"]

/-- utils.generate_stable_xpaths (an absent elementTag is modelled as the
empty string, matching the getattr default). -/
def generate_stable_xpaths (xpath : String) (params : Option StepParams) : List String :=
  if containsSub xpath "id(" then
    let element_tag := pyLower (match params with
      | some p => p.elementTag.getD ""
      | none => "")
    if element_tag != "" then
      match params with
      | some p =>
        match optTruthy p.cssSelector with
        | some css =>
          xpathAttrs.foldl (fun acc attr =>
            match findAttrCapture attr css with
            | some v => acc ++ ["//" ++ element_tag ++ "[contains(@" ++ attr ++ ", '" ++ v ++ "')]"]
            | none => acc) []
        | none => []
      | none => []
    else []
  else []

/-- The per-attempt timeout slice of get_best_element_handle's loop:
attempt 0 gets the nominal timeout, attempts 1-2 get min(0.6t, 3000),
attempts 3-4 get min(0.4t, 2000), later attempts get min(0.2t, 1000). -/
def attemptTimeout (i : ℕ) (timeout_ms : ℚ) : ℚ :=
  if i = 0 then timeout_ms
  else if i ≤ 2 then min (timeout_ms * 0.6) 3000
  else if i ≤ 4 then min (timeout_ms * 0.4) 2000
  else min (timeout_ms * 0.2) 1000

/-- The ordered selector list built at the top of get_best_element_handle:
primary, semantic, optimized (when different from the original), the original
selector, the params' fallbackSelectors, then the generated fallbacks. -/
def selectorsToTry (selector : String) (params : Option StepParams) : List String :=
  let l1 := match params with
    | some p => match optTruthy p.primarySelector with
      | some s => [s]
      | none => []
    | none => []
  let l2 := match params with
    | some p => match optTruthy p.semanticSelector with
      | some s => [s]
      | none => []
    | none => []
  let optimized := optimize_complex_selector selector params
  let l3 := match optimized with
    | some o => if o != selector then [o] else []
    | none => []
  let l5 := match params with
    | some p => match p.fallbackSelectors with
      | some fs => if fs.isEmpty then [] else fs
      | none => []
    | none => []
  let genBase := match optimized with
    | some o => if o == "" then selector else o
    | none => selector
  let l6 := generate_stable_selectors genBase params
  l1 ++ l2 ++ l3 ++ [selector] ++ l5 ++ l6

/-- Each candidate paired with its timeout slice. -/
def attemptSchedule (sels : List String) (timeout_ms : ℚ) : List (String × ℚ) :=
  sels.enum.map (fun p => (p.2, attemptTimeout p.1 timeout_ms))

/-- The candidate loop: return the first selector the page resolves within its
slice (a timeout is caught and the loop moves on). -/
def trySelectors (page : String → ℚ → Bool) (attempts : List (String × ℚ)) : Option String :=
  (attempts.find? (fun a => page a.1 a.2)).map (fun a => a.1)

/-- The text of the exception raised on exhaustion, which carries the original
selector argument. -/
def failureMessage (original_selector : String) : String :=
  "Failed to find element. Original: " ++ original_selector

/-- The xpath phase of get_best_element_handle. In the source the try block
wraps the whole for loop over `[xpath] + generate_stable_xpaths(...)`, so the
first attempt that raises ends the phase: only the head alternative is ever
waited for, and alternatives after a failed attempt are unreachable. -/
def tryXpathPhase (page : String → ℚ → Bool) (params : Option StepParams) (timeout_ms : ℚ) :
    Option String :=
  match params with
  | some p =>
    match optTruthy p.xpath with
    | some xp =>
      match xp :: generate_stable_xpaths xp (some p) with
      | [] => none
      | a :: _ => if page ("xpath=" ++ a) timeout_ms then some ("xpath=" ++ a) else none
    | none => none
  | none => none

/-- utils.get_best_element_handle: the candidate loop, then the xpath phase,
then the failure carrying the original selector. -/
def get_best_element_handle (page : String → ℚ → Bool) (selector : String)
    (params : Option StepParams) (timeout_ms : ℚ) : Except String String :=
  match trySelectors page (attemptSchedule (selectorsToTry selector params) timeout_ms) with
  | some used => Except.ok used
  | none =>
    match tryXpathPhase page params timeout_ms with
    | some used => Except.ok used
    | none => Except.error (failureMessage selector)

/-! ## hybrid/assertion_evaluator.py -/

/-- The failure indicator patterns of _determine_overall_success, each as the
literal pieces of a `a.*b.*c` search (a lone literal is a plain substring
search; a dot does not match a newline, so each pattern matches inside one
line). -/
def failureIndicators : List (List String) :=
  [["Execution stopped", "due to", "failure"],
   ["Authentication Error"],
   ["critical", "failure"],
   ["Unable to proceed"]]

/-- `re.search` of an `a.*b.*c` pattern with IGNORECASE: some line contains
the pieces in order. -/
def reSearchParts (content : String) (parts : List String) : Bool :=
  (splitLines content).any
    (fun line => inOrderSub (pyLower line).toList (parts.map (fun p => (pyLower p).toList)))

def failureIndicatorFound (content : String) : Bool :=
  failureIndicators.any (fun parts => reSearchParts content parts)

def successIndicators : List String :=
  ["Successfully completed", "All steps completed", "Task completed successfully",
   "All assertions passed", "Scenario completed", "actions were completed successfully",
   "✅ Task completed successfully", "ready to close browser",
   "All steps executed successfully", "STEP_RESULT: PASSED"]

def successIndicatorFound (content : String) : Bool :=
  successIndicators.any (fun s => containsCI content s)

def browserSuccessParts : List (List String) :=
  [["all assertions passed", "successfully"],
   ["task completed successfully"],
   ["scenario completed", "ready to close"],
   ["✅", "task completed successfully"]]

/-- The pattern `\d+\.\s+.*completed.*successfully`: a digit run, a dot, a
non-empty whitespace run, then "completed" and "successfully" in order within
the rest of the line the whitespace run ends on. -/
def numberedCompletedGo : List Char → Bool
  | [] => false
  | c :: rest =>
    (if c.isDigit then
      let run := (c :: rest).takeWhile Char.isDigit
      match (c :: rest).drop run.length with
      | '.' :: a2 =>
        let ws := a2.takeWhile pyWsChar
        if ws.isEmpty then false
        else inOrderSub ((a2.drop ws.length).takeWhile (fun ch => ch != '\n'))
          ["completed".toList, "successfully".toList]
      | _ => false
    else false) || numberedCompletedGo rest

def numberedCompletedFound (content : String) : Bool :=
  numberedCompletedGo (pyLower content).toList

def browserSuccessFound (content : String) : Bool :=
  browserSuccessParts.any (fun parts => reSearchParts content parts)
    || numberedCompletedFound content

/-- AssertionEvaluator._determine_overall_success. Only the `passed` booleans
of the step and assertion result dicts are consumed, so those lists are
modelled as lists of booleans. -/
def _determine_overall_success (step_results assertion_results : List Bool) (content : String) :
    Bool :=
  if failureIndicatorFound content then false
  else if !step_results.isEmpty && step_results.any (fun p => !p) then false
  else if !assertion_results.isEmpty && assertion_results.any (fun p => !p) then false
  else if !step_results.isEmpty || !assertion_results.isEmpty then true
  else if successIndicatorFound content then true
  else if browserSuccessFound content then true
  else false

/-! ## hybrid/fallback_manager.py -/

def gherkinKeywords : List String := ["Given", "When", "Then", "And", "But"]

/-- `any(line.startswith(keyword) for keyword in [...])` (case sensitive). -/
def startsWithKeyword (line : String) : Bool :=
  gherkinKeywords.any (fun kw => strStarts line kw)

/-- The line loop of FallbackManager._extract_step_from_gherkin. On the
target step the source appends the line and `continue`s without incrementing
`current_step`, so the counter never moves past `step_index` and the
`current_step > step_index` break is unreachable. -/
def extractStepLoop (step_index : ℕ) : List String → ℕ → List String → List String
  | [], _, acc => acc
  | l :: rest, cur, acc =>
    let line := pyStrip l
    if line != "" && !(strStarts line "#") then
      if startsWithKeyword line then
        if cur == step_index then extractStepLoop step_index rest cur (acc ++ [line])
        else if cur > step_index then acc
        else extractStepLoop step_index rest (cur + 1) acc
      else if !acc.isEmpty then extractStepLoop step_index rest cur (acc ++ [line])
      else extractStepLoop step_index rest cur acc
    else extractStepLoop step_index rest cur acc

/-- FallbackManager._extract_step_from_gherkin. -/
def _extract_step_from_gherkin (gherkin_scenario : String) (step_index : ℕ) : Option String :=
  let lines := splitLines (pyStrip gherkin_scenario)
  let step_lines := extractStepLoop step_index lines 0 []
  if !step_lines.isEmpty then
    let feature_line := (lines.find? (fun l => strStarts (pyStrip l) "Feature:")).getD
      "Feature: Test Step"
    let scenario_line := (lines.find? (fun l => strStarts (pyStrip l) "Scenario:")).getD
      "Scenario: Execute Step"
    some (feature_line ++ "\n\n" ++ scenario_line ++ "\n    "
      ++ pyJoin "\n    " step_lines)
  else none

/-! ## hybrid/simple_capture.py -/

/-- A captured element as probed by SimpleWorkflowCapture: the attributes
dict, plus the optional duck-typed fields the code probes with hasattr
(an absent or falsy probe is `none`). -/
structure ElementData where
  attributes : List (String × String) := []
  idAttr : Option String := none
  nameAttr : Option String := none
  tag_name : Option String := none
  css_selector : Option String := none
  xpath : Option String := none
deriving DecidableEq

def attrsGet (attrs : List (String × String)) (k : String) : Option String :=
  (attrs.find? (fun p => p.1 == k)).map (fun p => p.2)

/-- Python `attrs.get(k)` used in a truthiness test. -/
def attrsTruthy (attrs : List (String × String)) (k : String) : Option String :=
  optTruthy (attrsGet attrs k)

/-- SimpleWorkflowCapture._get_element_selector: the tiered single best
selector for a captured element. -/
def _get_element_selector (element : Option ElementData) : String :=
  match element with
  | none => ""
  | some e =>
    let attrs := e.attributes
    let tag := e.tag_name.getD "div"
    match attrsTruthy attrs "data-testid" with
    | some v => "[data-testid='" ++ v ++ "']"
    | none =>
      match attrsTruthy attrs "data-cy" with
      | some v => "[data-cy='" ++ v ++ "']"
      | none =>
        match optTruthy e.idAttr with
        | some v => "#" ++ v
        | none =>
          match attrsTruthy attrs "id" with
          | some v => "#" ++ v
          | none =>
            match optTruthy e.nameAttr with
            | some v => tag ++ "[name='" ++ v ++ "']"
            | none =>
              match attrsTruthy attrs "name" with
              | some v => tag ++ "[name='" ++ v ++ "']"
              | none =>
                let inputBranch : Option String :=
                  if tag == "input" then
                    match attrsTruthy attrs "type" with
                    | some t =>
                      match attrsTruthy attrs "placeholder" with
                      | some pl => some ("input[type='" ++ t ++ "'][placeholder='" ++ pl ++ "']")
                      | none => some ("input[type='" ++ t ++ "']")
                    | none => none
                  else none
                match inputBranch with
                | some r => r
                | none =>
                  match attrsTruthy attrs "role" with
                  | some v => "[role='" ++ v ++ "']"
                  | none =>
                    match attrsTruthy attrs "aria-label" with
                    | some v => "[aria-label='" ++ v ++ "']"
                    | none =>
                      let classBranch : Option String :=
                        match attrsTruthy attrs "class" with
                        | some cls =>
                          let stable := (pySplitWs cls).filter
                            (fun c => !(strStarts c "css-") && c.length > 3)
                          if !stable.isEmpty then
                            some (tag ++ "." ++ pyJoin "." (stable.take 2))
                          else none
                        | none => none
                      match classBranch with
                      | some r => r
                      | none =>
                        match optTruthy e.css_selector with
                        | some c => c
                        | none => e.tag_name.getD ""

structure MSelectors where
  primary : Option String := none
  semantic : Option String := none
  fallbacks : List String := []
  attributes : List (String × String) := []
deriving DecidableEq

/-- SimpleWorkflowCapture._generate_multi_strategy_selectors. -/
def _generate_multi_strategy_selectors (element : Option ElementData) : MSelectors :=
  match element with
  | none => {}
  | some e =>
    let attrs := e.attributes
    let tag := e.tag_name.getD "div"
    let primary :=
      match attrsTruthy attrs "data-testid" with
      | some v => some ("[data-testid='" ++ v ++ "']")
      | none =>
        match attrsTruthy attrs "data-cy" with
        | some v => some ("[data-cy='" ++ v ++ "']")
        | none =>
          match attrsTruthy attrs "id" with
          | some v => some ("#" ++ v)
          | none => none
    let semantic :=
      match attrsTruthy attrs "name" with
      | some v => some (tag ++ "[name='" ++ v ++ "']")
      | none =>
        match (if tag == "input" then attrsTruthy attrs "type" else none) with
        | some t => some ("input[type='" ++ t ++ "']")
        | none =>
          match attrsTruthy attrs "role" with
          | some v => some ("[role='" ++ v ++ "']")
          | none => none
    let fb1 :=
      match (if tag == "input" then attrsTruthy attrs "type" else none) with
      | some t =>
        (match attrsTruthy attrs "placeholder" with
         | some pl => ["input[type='" ++ t ++ "'][placeholder='" ++ pl ++ "']"]
         | none => []) ++ ["input[type='" ++ t ++ "']"]
      | none => []
    let fb2 :=
      match attrsTruthy attrs "aria-label" with
      | some v => ["[aria-label='" ++ v ++ "']"]
      | none => []
    let fb3 :=
      match attrsTruthy attrs "class" with
      | some cls =>
        let stable := (pySplitWs cls).filter (fun c => !(strStarts c "css-") && c.length > 3)
        if !stable.isEmpty then [tag ++ "." ++ pyJoin "." (stable.take 2)] else []
      | none => []
    let fb4 :=
      if tag == "button" || tag == "a" then
        match attrsTruthy attrs "aria-label" with
        | some v => [tag ++ ":has-text('" ++ v ++ "')"]
        | none => []
      else []
    { primary := primary, semantic := semantic, fallbacks := fb1 ++ fb2 ++ fb3 ++ fb4,
      attributes := attrs }

def _get_element_xpath (element : Option ElementData) : Option String :=
  match element with
  | some e => e.xpath
  | none => none

def _get_element_tag (element : Option ElementData) : Option String :=
  match element with
  | some e => e.tag_name
  | none => none

def _get_element_text (element : Option ElementData) : Option String :=
  match element with
  | some e =>
    (attrsTruthy e.attributes "aria-label").orElse
      (fun _ => (attrsTruthy e.attributes "value").orElse
        (fun _ => attrsTruthy e.attributes "title"))
  | none => none

/-- The workflow step variants produced by the capture pipeline. -/
inductive WStep where
  | navigation (url description : String)
  | click (cssSelector : String) (xpath : Option String) (elementTag : Option String)
      (elementText : Option String) (description : String)
      (primarySelector semanticSelector : Option String) (fallbackSelectors : List String)
  | input (cssSelector value : String) (xpath : Option String) (elementTag : Option String)
      (description : String) (primarySelector semanticSelector : Option String)
      (fallbackSelectors : List String)
deriving DecidableEq

def dataGet (d : List (String × String)) (k : String) (dflt : String) : String :=
  ((d.find? (fun p => p.1 == k)).map (fun p => p.2)).getD dflt

/-- SimpleWorkflowCapture._convert_browser_action_to_step. -/
def _convert_browser_action_to_step (action_name : String) (action_data : List (String × String))
    (interacted : Option ElementData) : Option WStep :=
  if action_name == "go_to_url" then
    let url := dataGet action_data "url" ""
    some (WStep.navigation url ("Navigate to " ++ url))
  else if action_name == "input_text" then
    let css := _get_element_selector interacted
    let text := dataGet action_data "text" ""
    let sels := _generate_multi_strategy_selectors interacted
    some (WStep.input css text (_get_element_xpath interacted) (_get_element_tag interacted)
      ("Enter '" ++ text ++ "' in input field") sels.primary sels.semantic sels.fallbacks)
  else if action_name == "click_element_by_index" then
    let css := _get_element_selector interacted
    let etext := _get_element_text interacted
    let sels := _generate_multi_strategy_selectors interacted
    some (WStep.click css (_get_element_xpath interacted) (_get_element_tag interacted) etext
      ("Click " ++ etext.getD "element") sels.primary sels.semantic sels.fallbacks)
  else none

/-- One model-action record: the action entries of the dict (minus the
interacted_element key) and the interacted element itself. -/
structure ModelAction where
  actions : List (String × List (String × String)) := []
  interacted_element : Option ElementData := none
deriving DecidableEq

/-- The duck-typed agent history object: a `none` field models a missing
method (the AttributeError / hasattr-failure path). -/
structure AgentHistory where
  model_actions : Option (List ModelAction) := none
  action_results : Option (List (Option String)) := none
  model_outputs : Option (List ModelAction) := none
deriving DecidableEq

/-- SimpleWorkflowCapture._extract_steps_from_agent_history. -/
def _extract_steps_from_agent_history (h : AgentHistory) : List WStep :=
  match h.model_actions with
  | none => []
  | some mas =>
    if mas.isEmpty then []
    else (mas.map (fun ma => ma.actions.filterMap
      (fun a => _convert_browser_action_to_step a.1 a.2 ma.interacted_element))).flatten

def urlRun (l : List Char) : List Char := l.takeWhile (fun c => !(pyWsChar c))

/-- `re.search(r'https?://[^\s]+', s)`, returning the match. -/
def urlSearchGo : List Char → Option String
  | [] => none
  | c :: rest =>
    if ("https://".toList).isPrefixOf (c :: rest) then
      let run := urlRun ((c :: rest).drop 8)
      if run.isEmpty then urlSearchGo rest else some ("https://" ++ run.asString)
    else if ("http://".toList).isPrefixOf (c :: rest) then
      let run := urlRun ((c :: rest).drop 7)
      if run.isEmpty then urlSearchGo rest else some ("http://" ++ run.asString)
    else urlSearchGo rest

/-- The `\s+into\s+index\s+(\d+)` tail of the input-action pattern, matched at
the head of the text; returns the digit group. -/
def matchIntoIndex (l : List Char) : Option String :=
  let ws1 := l.takeWhile pyWsChar
  if ws1.isEmpty then none
  else
    let a := l.drop ws1.length
    if ("into".toList).isPrefixOf a then
      let b := a.drop 4
      let ws2 := b.takeWhile pyWsChar
      if ws2.isEmpty then none
      else
        let c2 := b.drop ws2.length
        if ("index".toList).isPrefixOf c2 then
          let d := c2.drop 5
          let ws3 := d.takeWhile pyWsChar
          if ws3.isEmpty then none
          else
            let e2 := d.drop ws3.length
            let digits := e2.takeWhile Char.isDigit
            if digits.isEmpty then none else some digits.asString
        else none
    else none

/-- The lazy group `(.+?)` of `input\s+(.+?)\s+into\s+index\s+(\d+)`: grow the
capture one non-newline character at a time until the tail matches. -/
def capScan : ℕ → List Char → List Char → Option (String × String)
  | 0, _, _ => none
  | fuel + 1, capRev, rem =>
    match rem with
    | [] => none
    | c :: rest =>
      if c == '\n' then none
      else
        match matchIntoIndex rest with
        | some digits => some ((c :: capRev).reverse.asString, digits)
        | none => capScan fuel (c :: capRev) rest

/-- `re.search(r'input\s+(.+?)\s+into\s+index\s+(\d+)', lower)`. -/
def inputIdxSearchGo : ℕ → List Char → Option (String × String)
  | 0, _ => none
  | fuel + 1, l =>
    match l with
    | [] => none
    | c :: rest =>
      if ("input".toList).isPrefixOf (c :: rest) then
        let a := (c :: rest).drop 5
        let ws := a.takeWhile pyWsChar
        if ws.isEmpty then inputIdxSearchGo fuel rest
        else
          match capScan a.length [] (a.drop ws.length) with
          | some r => some r
          | none => inputIdxSearchGo fuel rest
      else inputIdxSearchGo fuel rest

/-- `re.search(r'index\s+(\d+)', lower)`, returning the digit group. -/
def idxSearchGo : List Char → Option String
  | [] => none
  | c :: rest =>
    if ("index".toList).isPrefixOf (c :: rest) then
      let a := (c :: rest).drop 5
      let ws := a.takeWhile pyWsChar
      if ws.isEmpty then idxSearchGo rest
      else
        let d := (a.drop ws.length).takeWhile Char.isDigit
        if d.isEmpty then idxSearchGo rest else some d.asString
    else idxSearchGo rest

/-- SimpleWorkflowCapture._parse_action_content_to_step. -/
def _parse_action_content_to_step (content : String) (_step_index : ℕ) : Option WStep :=
  if content == "" then none
  else
    let lower := pyLower content
    if containsSub lower "navigated to" && containsSub lower "http" then
      match urlSearchGo content.toList with
      | some url => some (WStep.navigation url ("Navigate to " ++ url))
      | none => none
    else if containsSub lower "input" && containsSub lower "into index" then
      match inputIdxSearchGo lower.toList.length lower.toList with
      | some (text, idx) =>
        let t := pyStrip text
        some (WStep.input ("[data-index='" ++ idx ++ "']") t none (some "input")
          ("Enter '" ++ t ++ "' in input field") none none [])
      | none => none
    else if containsSub lower "clicked" && containsSub lower "index" then
      match idxSearchGo lower.toList with
      | some idx => some (WStep.click ("[data-index='" ++ idx ++ "']") none (some "button") none
          "Click button" none none [])
      | none => none
    else if containsSub lower "extracted from page" then none
    else none

/-- SimpleWorkflowCapture._extract_steps_from_action_results. -/
def _extract_steps_from_action_results (h : AgentHistory) : List WStep :=
  match h.action_results with
  | some ars =>
    ars.enum.filterMap (fun p =>
      match p.2 with
      | some content => _parse_action_content_to_step content p.1
      | none => none)
  | none =>
    match h.model_outputs with
    | some mos =>
      (mos.map (fun ma => ma.actions.filterMap
        (fun a => _convert_browser_action_to_step a.1 a.2 ma.interacted_element))).flatten
    | none => []

structure Workflow where
  name : String
  description : String
  version : String
  steps : List WStep
  input_schema : List String
  workflow_analysis : String
deriving DecidableEq

/-- SimpleWorkflowCapture.create_workflow_from_browser_use: `now` stands for
the wall clock reading used in the workflow_analysis text. -/
def create_workflow_from_browser_use (h : AgentHistory) (test_name : String) (success : Bool)
    (now : String) : Option Workflow :=
  if !success then none
  else
    let steps := _extract_steps_from_agent_history h
    let steps2 := if steps.isEmpty then _extract_steps_from_action_results h else steps
    if steps2.isEmpty then none
    else some { name := test_name,
                description := "Auto-generated workflow from " ++ test_name,
                version := "1.0.0",
                steps := steps2,
                input_schema := [],
                workflow_analysis := "Captured from browser-use execution on " ++ now }

/-! ## smart_test/step_tracker.py -/

/-- The backtracking tail of a `\s*(.+?)(?=\n|$)` suffix when the maximal
whitespace run reaches the end of the string: the lazy group takes the last
non-newline whitespace character, and the trailing newline run remains. -/
def trailingWsCapture (ws : List Char) : Option (List Char × List Char) :=
  let rev := ws.reverse
  let nl := rev.takeWhile (fun c => c == '\n')
  match rev.drop nl.length with
  | [] => none
  | c :: _ => some ([c], nl)

/-- A `\s*(.+?)(?=\n|$)` suffix matched at the head of the text: skip the
maximal whitespace run, then capture the non-empty rest of the line; returns
the capture and the remainder after the match. -/
def lazyCapTail (after : List Char) : Option (List Char × List Char) :=
  let ws := after.takeWhile pyWsChar
  let rest := after.drop ws.length
  let cap := rest.takeWhile (fun c => c != '\n')
  if cap.isEmpty then trailingWsCapture ws
  else some (cap, rest.drop cap.length)

/-- The generic non-overlapping findall engine: try the matcher at every
position, restarting after each match's end. -/
def findallGo {α : Type} (m : List Char → Option (α × List Char)) : ℕ → List Char → List α
  | 0, _ => []
  | _, [] => []
  | fuel + 1, c :: rest =>
    match m (c :: rest) with
    | some (a, rem) => a :: findallGo m fuel rem
    | none => findallGo m fuel rest

def pyFindall {α : Type} (m : List Char → Option (α × List Char)) (s : String) : List α :=
  findallGo m s.toList.length s.toList

/-- A `TAG\s*(.+?)(?=\n|$)` pattern (IGNORECASE) matched at the head. -/
def lineTagMatcher (tag : String) (h : List Char) : Option (String × List Char) :=
  if ciStarts tag.toList h then
    (lazyCapTail (h.drop tag.length)).map (fun p => (p.1.asString, p.2))
  else none

/-- The `(PASSED|FAILED)` group (IGNORECASE), returning the matched text. -/
def matchStatusAt (h : List Char) : Option (String × List Char) :=
  if ciStarts "PASSED".toList h then some ((h.take 6).asString, h.drop 6)
  else if ciStarts "FAILED".toList h then some ((h.take 6).asString, h.drop 6)
  else none

/-- `STEP_RESULT:\s*(PASSED|FAILED)\s*-\s*(.+?)(?=\n|$)` at the head. -/
def matchStepResultAt (h : List Char) : Option ((String × String) × List Char) :=
  if ciStarts "STEP_RESULT:".toList h then
    let a1 := h.drop 12
    let a2 := a1.drop (a1.takeWhile pyWsChar).length
    match matchStatusAt a2 with
    | some (st, a3) =>
      let a4 := a3.drop (a3.takeWhile pyWsChar).length
      match a4 with
      | '-' :: a5 =>
        match lazyCapTail a5 with
        | some (cap, rem) => some ((st, cap.asString), rem)
        | none => none
      | _ => none
    | none => none
  else none

/-- The first digit run followed by a dot (the `.*?(\d+)\.` part of the memory
pattern under DOTALL): returns the digits and the text after the dot. -/
def scanNumDot : List Char → Option (List Char × List Char)
  | [] => none
  | c :: rest =>
    if c.isDigit then
      let run := (c :: rest).takeWhile Char.isDigit
      match (c :: rest).drop run.length with
      | '.' :: a => some (run, a)
      | _ => scanNumDot rest
    else scanNumDot rest

/-- The lookahead `(?=\d+\.|Current|Next|$)` of the memory pattern. -/
def stopHere (h : List Char) : Bool :=
  (match h with
   | c :: _ =>
     c.isDigit && (match h.drop (h.takeWhile Char.isDigit).length with
       | '.' :: _ => true
       | _ => false)
   | [] => false)
  || ciStarts "Current".toList h || ciStarts "Next".toList h

/-- The lazy DOTALL group `(.*?)` ended by the lookahead: capture and rest. -/
def scanUntilStop : List Char → List Char × List Char
  | [] => ([], [])
  | c :: rest =>
    if stopHere (c :: rest) then ([], c :: rest)
    else
      let p := scanUntilStop rest
      (c :: p.1, p.2)

/-- `Steps? completed:.*?(\d+)\.(.*?)(?=\d+\.|Current|Next|$)` (IGNORECASE,
DOTALL) at the head, returning both groups. -/
def matchMemoryAt (h : List Char) : Option ((String × String) × List Char) :=
  let afterLit : Option (List Char) :=
    if ciStarts "Steps completed:".toList h then some (h.drop 16)
    else if ciStarts "Step completed:".toList h then some (h.drop 15)
    else none
  match afterLit with
  | some a1 =>
    match scanNumDot a1 with
    | some (num, a2) =>
      let p := scanUntilStop a2
      some ((num.asString, p.1.asString), p.2)
    | none => none
  | none => none

/-- `Next goal:\s*STEP_START:\s*(.+?)(?=\n|$)` at the head. -/
def matchGoalAt (h : List Char) : Option (String × List Char) :=
  if ciStarts "Next goal:".toList h then
    let a1 := h.drop 10
    let a2 := a1.drop (a1.takeWhile pyWsChar).length
    if ciStarts "STEP_START:".toList a2 then
      match lazyCapTail (a2.drop 11) with
      | some (cap, rem) => some (cap.asString, rem)
      | none => none
    else none
  else none

/-- `Eval:\s*Success\s*-\s*(.+?)(?=\n|$)` at the head. -/
def matchEvalAt (h : List Char) : Option (String × List Char) :=
  if ciStarts "Eval:".toList h then
    let a1 := h.drop 5
    let a2 := a1.drop (a1.takeWhile pyWsChar).length
    if ciStarts "Success".toList a2 then
      let a3 := a2.drop 7
      let a4 := a3.drop (a3.takeWhile pyWsChar).length
      match a4 with
      | '-' :: a5 =>
        match lazyCapTail a5 with
        | some (cap, rem) => some (cap.asString, rem)
        | none => none
      | _ => none
    else none
  else none

def browserErrorIndicators : List String :=
  ["element not found", "timeout", "failed to click", "failed to type",
   "navigation failed", "page load failed"]

/-- StepTracker._extract_browser_errors. -/
def _extract_browser_errors (extracted_content : List String) : List (String × String) :=
  extracted_content.filterMap (fun content =>
    if browserErrorIndicators.any (fun ind => containsSub (pyLower content) ind) then
      some ("FAILED", "Browser action failed: " ++ pyTake content 100 ++ "...")
    else none)

/-- StepTracker._extract_parsing_errors. -/
def _extract_parsing_errors (errors : List String) : List (String × String) :=
  errors.filterMap (fun e =>
    let le := pyLower e
    if containsSub le "failed to parse" || containsSub le "could not parse" then
      some ("FAILED", "Parsing error: " ++ e)
    else if containsSub le "result failed" then
      some ("FAILED", "Agent execution failed: " ++ e)
    else none)

/-- A stripped line that starts with a Gherkin keyword followed by at least
one whitespace character (the `^\s*(Given|When|Then|And|But)\s+` match with
IGNORECASE). -/
def kwWithWs (line : String) : Bool :=
  gherkinKeywords.any (fun kw =>
    ciStarts kw.toList line.toList &&
    (match line.toList.drop kw.length with
     | c :: _ => pyWsChar c
     | [] => false))

/-- StepTracker._parse_gherkin_steps. -/
def _parse_gherkin_steps (gherkin_content : String) : List String :=
  (splitLines gherkin_content).filterMap (fun l =>
    let line := pyStrip l
    if kwWithWs line then some line else none)

/-- `re.sub(r'^\s*(Given|When|Then|And|But)\s+', '', s)` with IGNORECASE. -/
def stripKeywordHead (s : String) : String :=
  let l := s.toList
  let a := l.drop (l.takeWhile pyWsChar).length
  match gherkinKeywords.find? (fun kw =>
    ciStarts kw.toList a &&
    (match a.drop kw.length with
     | c :: _ => pyWsChar c
     | [] => false)) with
  | some kw => ((a.drop kw.length).dropWhile pyWsChar).asString
  | none => s

/-- `re.sub(r'^(step \d+:?\s*)', '', s)` on an already lowercased string. -/
def stripStepNumHead (s : String) : String :=
  let l := s.toList
  if ("step ".toList).isPrefixOf l then
    let a := l.drop 5
    let d := a.takeWhile Char.isDigit
    if d.isEmpty then s
    else
      let b := a.drop d.length
      let b2 := match b with
        | ':' :: t => t
        | t => t
      (b2.dropWhile pyWsChar).asString
  else s

/-- StepTracker._calculate_similarity compared against the 0.6 threshold:
the word-set Jaccard ratio exceeds 3/5. -/
def similarityAbove (s1 s2 : String) : Bool :=
  let w1 := pyDedup (pySplitWs s1)
  let w2 := pyDedup (pySplitWs s2)
  if w1.isEmpty && w2.isEmpty then true
  else if w1.isEmpty || w2.isEmpty then false
  else
    let inter := (w1.filter (fun w => w2.contains w)).length
    let union := (pyDedup (w1 ++ w2)).length
    5 * inter > 3 * union

/-- StepTracker._steps_match. -/
def _steps_match (gherkin_step tracked_message : String) : Bool :=
  let gn := pyLower (stripKeywordHead gherkin_step)
  let tn := stripStepNumHead (pyLower tracked_message)
  containsSub tn gn || containsSub gn tn || similarityAbove gn tn

def overallFailurePhrases : List String :=
  ["task completed without success", "blocker encountered", "execution incomplete",
   "gherkin scenario execution incomplete"]

def hasOverallFailure (results failures : List (String × String)) : Bool :=
  (results ++ failures).any (fun p =>
    overallFailurePhrases.any (fun ph => containsSub (pyLower p.2) ph))

/-- One classified step result; `timestamp` records the wall clock reading
taken when the record is built. -/
structure StepInfo where
  step_number : ℕ
  step_text : String
  status : String
  message : String
  timestamp : String
  execution_order : ℕ
deriving DecidableEq

def mkStepInfo (i : ℕ) (text : String) (sm : String × String) (now : String) : StepInfo :=
  { step_number := i + 1, step_text := text, status := sm.1, message := sm.2,
    timestamp := now, execution_order := i + 1 }

/-- The status and message assigned to step `i` by the body of
_process_explicit_step_tracking: the defaults, the first matching tracked
result (a PASSED result does not override the FAILED default when an overall
failure phrase was seen), then the first matching failure which always
overrides. -/
def explicitStatusMsg (hof : Bool) (results failures : List (String × String)) (i : ℕ)
    (step : String) : String × String :=
  let dflt := if hof then ("FAILED", "Step likely failed due to overall execution failure")
    else ("PASSED", "Step executed successfully")
  let afterResults :=
    match results.enum.find? (fun q => _steps_match step q.2.2 || i == q.1) with
    | some q =>
      if hof && pyUpper q.2.1 == "PASSED" then
        (dflt.1, "Step tracking shows PASSED but overall execution failed: " ++ pyStrip q.2.2)
      else (pyUpper q.2.1, pyStrip q.2.2)
    | none => dflt
  match failures.find? (fun f => _steps_match step f.2) with
  | some f => ("FAILED", pyStrip f.2)
  | none => afterResults

/-- StepTracker._process_explicit_step_tracking (`now` is the wall clock
reading stamped on every record; the step_starts argument is accepted but,
as in the source, never read). -/
def _process_explicit_step_tracking (gherkin_steps : List String) (_step_starts : List String)
    (step_results_found : List (String × String)) (all_failures : List (String × String))
    (now : String) : List StepInfo :=
  let hof := hasOverallFailure step_results_found all_failures
  gherkin_steps.enum.map (fun p =>
    mkStepInfo p.1 p.2 (explicitStatusMsg hof step_results_found all_failures p.1 p.2) now)

/-- StepTracker._categorize_error. -/
def _categorize_error (error_content : String) : String :=
  let le := pyLower error_content
  if containsSub le "blocker encountered" || containsSub le "unable to proceed" then
    "Business logic blocker - execution stopped due to data conflicts or validation errors"
  else if containsSub le "task completed without success" then
    "Task execution failed - completed but did not achieve success criteria"
  else if containsSub le "email conflict" || containsSub le "already has an ongoing contract" then
    "Data conflict error - duplicate or conflicting data prevented operation completion"
  else if containsSub le "element not found" || containsSub le "no such element" then
    "Element location failed - target element not found on page"
  else if containsSub le "timeout" then
    "Operation timeout - element or condition not met within time limit"
  else if containsSub le "click" && containsSub le "failed" then
    "Click action failed - element not clickable or interaction blocked"
  else if containsSub le "type" && containsSub le "failed" then
    "Text input failed - field not accessible or input rejected"
  else if containsSub le "navigation" && containsSub le "failed" then
    "Page navigation failed - URL unreachable or redirect issue"
  else if containsSub le "parse" && containsSub le "failed" then
    "AI model parsing error - response format issue or token limit exceeded"
  else "Execution error: " ++ pyTake error_content 100 ++ "..."

/-- The history dict consumed by StepTracker (content and action entries are
modelled as strings). -/
structure HistoryData where
  extracted_content : List String := []
  model_actions : List String := []
  errors : List String := []
  final_status_indicators : List String := []
deriving DecidableEq

/-- An error that sets the parsing_failures flag. -/
def errIsParse (e : String) : Bool :=
  containsSub (pyLower e) "failed to parse" || containsSub (pyLower e) "could not parse"

/-- An error that sets the agent_failures flag (the elif keeps it disjoint
from the parsing branch). -/
def errIsAgent (e : String) : Bool :=
  !errIsParse e && containsSub (pyLower e) "result failed"

/-- An error that sets the task_completion_failures flag (again disjoint from
the earlier branches of the elif chain). -/
def errIsTask (e : String) : Bool :=
  !errIsParse e && !containsSub (pyLower e) "result failed" &&
    (containsSub (pyLower e) "task completed without success"
      || containsSub (pyLower e) "blocker encountered")

/-- The overall status computed at the top of _infer_step_results_from_actions:
FAILED when the final status indicators contain "FAILED" or any error entry is
present (every branch of the error loop sets FAILED). -/
def overallFailedB (hd : HistoryData) : Bool :=
  hd.final_status_indicators.contains "FAILED" || !hd.errors.isEmpty

/-- The status and message assigned to step `i` of `n` by the body of
_infer_step_results_from_actions. -/
def inferStatusMsg (hd : HistoryData) (n i : ℕ) : String × String :=
  let base :=
    match hd.model_actions.get? i with
    | some act =>
      match hd.extracted_content.get? i with
      | some content =>
        if containsSub (pyLower content) "error" || containsSub (pyLower content) "failed" then
          ("FAILED", _categorize_error content)
        else ("PASSED", "Completed: " ++ pyTake content 100 ++ "...")
      | none => ("INFERRED", "Executed action: " ++ act)
    | none => ("INFERRED", "Step status inferred from execution")
  if base.1 == "INFERRED" then
    if overallFailedB hd then
      if hd.errors.any errIsTask then
        ("FAILED",
         "Task execution blocked - unable to complete due to business logic constraints or data conflicts")
      else if hd.errors.any errIsParse then
        ("FAILED",
         "AI model parsing error - response could not be processed (possible token limit or format issue)")
      else if hd.errors.any errIsAgent then
        ("FAILED", "AI agent failed after multiple retry attempts - persistent execution issue")
      else if i == n - 1 then ("FAILED", "Step likely failed based on overall execution result")
      else ("PASSED", "Step likely passed before failure occurred")
    else ("PASSED", "Step completed successfully (inferred from overall success)")
  else base

/-- StepTracker._infer_step_results_from_actions. -/
def _infer_step_results_from_actions (gherkin_steps : List String) (hd : HistoryData)
    (now : String) : List StepInfo :=
  gherkin_steps.enum.map (fun p =>
    mkStepInfo p.1 p.2 (inferStatusMsg hd gherkin_steps.length p.1) now)

/-- StepTracker.extract_step_results: collect the explicit tracking patterns
from all content, the browser and parsing errors, then route to the explicit
processor when anything was found and to the positional inference otherwise.
`now` is the wall clock reading stamped on every step record. -/
def extract_step_results (hd : HistoryData) (gherkin_content : String) (now : String) :
    List StepInfo :=
  let gherkin_steps := _parse_gherkin_steps gherkin_content
  let all_content := hd.extracted_content ++ hd.model_actions
  let step_starts := (all_content.map (fun c =>
    pyFindall (lineTagMatcher "STEP_START:") c ++ pyFindall matchGoalAt c)).flatten
  let step_results_found := (all_content.map (fun c =>
    pyFindall matchStepResultAt c
      ++ (pyFindall matchMemoryAt c).map (fun pr => ("PASSED", "Step " ++ pr.1 ++ ": " ++ pyStrip pr.2))
      ++ (pyFindall matchEvalAt c).map (fun m => ("PASSED", pyStrip m)))).flatten
  let step_failures := (all_content.map (fun c =>
    (pyFindall (lineTagMatcher "STEP_FAILED:") c).map (fun m => ("FAILED", m)))).flatten
  let browser_errors := _extract_browser_errors hd.extracted_content
  let parsing_errors := _extract_parsing_errors hd.errors
  let all_failures := step_failures ++ browser_errors ++ parsing_errors
  if !step_starts.isEmpty || !step_results_found.isEmpty || !all_failures.isEmpty then
    _process_explicit_step_tracking gherkin_steps step_starts step_results_found all_failures now
  else
    _infer_step_results_from_actions gherkin_steps hd now

/-- A step record with its timestamp field cleared, for statements about
behaviour that does not depend on the clock. -/
def stripTime (s : StepInfo) : StepInfo := { s with timestamp := "" }

/-! ## Concrete inputs used by the witnesses and counterexamples -/

def c2params : StepParams := { primarySelector := some "#primary" }

def c3content : String :=
  "Execution stopped at step 2 due to login failure\nSTEP_RESULT: PASSED - done"

def c4gherkin : String := "Feature: F\nScenario: S\nGiven a\nWhen b\nThen c"

def c5params : StepParams :=
  { xpath := some "id(login)", elementTag := some "input",
    cssSelector := some "input[placeholder='Email']" }

def c5page : String → ℚ → Bool :=
  fun s _ => s == "xpath=//input[contains(@placeholder, 'Email')]"

def c6elem : ElementData := { attributes := [("id", "btn1"), ("data-testid", "submit")] }

def c8gs : List String := ["Given a", "When b"]

def c8hd : HistoryData := { final_status_indicators := ["FAILED"] }

def c8hdC : HistoryData := { errors := ["task completed without success"] }

def c9hd : HistoryData := { extracted_content := ["STEP_RESULT: PASSED - ok"] }

/-! ## Helper lemmas -/

/-- The explicit processor is clock-invariant once timestamps are cleared. -/
theorem strip_process_time (gs ss : List String) (rs fs : List (String × String)) (t1 t2 : String) :
    (_process_explicit_step_tracking gs ss rs fs t1).map stripTime =
      (_process_explicit_step_tracking gs ss rs fs t2).map stripTime := by
  simp only [_process_explicit_step_tracking, List.map_map]
  apply List.map_congr_left
  intro p _
  rfl

/-- The positional inference is clock-invariant once timestamps are cleared. -/
theorem strip_infer_time (gs : List String) (hd : HistoryData) (t1 t2 : String) :
    (_infer_step_results_from_actions gs hd t1).map stripTime =
      (_infer_step_results_from_actions gs hd t2).map stripTime := by
  simp only [_infer_step_results_from_actions, List.map_map]
  apply List.map_congr_left
  intro p _
  rfl

/-! ## Claims -/

/-- C1: for every nominal timeout and attempt index, the slice computed by
the resolver loop follows the declared schedule: attempt 0 gets the full
nominal timeout, attempts 1 and 2 get min(0.6 T, 3000), attempts 3 and 4 get
min(0.4 T, 2000), and every attempt with index at least 5 gets
min(0.2 T, 1000). -/
theorem C1_timeout_schedule (timeout_ms : ℚ) (i : ℕ) :
    (i = 0 → attemptTimeout i timeout_ms = timeout_ms) ∧
    (i = 1 ∨ i = 2 → attemptTimeout i timeout_ms = min (0.6 * timeout_ms) 3000) ∧
    (i = 3 ∨ i = 4 → attemptTimeout i timeout_ms = min (0.4 * timeout_ms) 2000) ∧
    (5 ≤ i → attemptTimeout i timeout_ms = min (0.2 * timeout_ms) 1000) := by
  refine ⟨fun h => ?_, fun h => ?_, fun h => ?_, fun h => ?_⟩
  · subst h; simp [attemptTimeout]
  · rcases h with h | h <;> subst h <;> simp [attemptTimeout, mul_comm]
  · rcases h with h | h <;> subst h <;> simp [attemptTimeout, mul_comm]
  · have h0 : ¬ i = 0 := by omega
    have h2 : ¬ i ≤ 2 := by omega
    have h4 : ¬ i ≤ 4 := by omega
    simp [attemptTimeout, h0, h2, h4, mul_comm]

theorem C1_timeout_schedule_witness : attemptTimeout 1 5000 = 3000 := by
  have h := (C1_timeout_schedule 5000 1).2.1 (Or.inl rfl)
  rw [h]
  norm_num

/-- C2 (amended): when resolution fails, the reported selector text is the
original selector argument of get_best_element_handle, for every page, every
params object and every timeout. -/
theorem C2_failure_reports_original_selector (page : String → ℚ → Bool) (selector : String)
    (params : Option StepParams) (timeout_ms : ℚ) (r : String)
    (h : get_best_element_handle page selector params timeout_ms = Except.error r) :
    r = failureMessage selector := by
  unfold get_best_element_handle at h
  cases h1 : trySelectors page (attemptSchedule (selectorsToTry selector params) timeout_ms) with
  | some used => rw [h1] at h; simp at h
  | none =>
    rw [h1] at h
    cases h2 : tryXpathPhase page params timeout_ms with
    | some u => rw [h2] at h; simp at h
    | none =>
      rw [h2] at h
      simp at h
      exact h.symm

theorem C2_failure_reports_original_selector_witness :
    "Failed to find element. Original: div.foo" = failureMessage "div.foo" :=
  C2_failure_reports_original_selector (fun _ _ => false) "div.foo" none 5000
    "Failed to find element. Original: div.foo" (by rfl)

/-- C2 counterexample: with a primarySelector present, the first candidate
attempted is the primary selector, yet the failure reports the original
selector argument, so the reported text is not the first selector attempted. -/
theorem C2_counterexample :
    (selectorsToTry "div.foo" (some c2params)).head? = some "#primary" ∧
    get_best_element_handle (fun _ _ => false) "div.foo" (some c2params) 5000
      = Except.error (failureMessage "div.foo") ∧
    "#primary" ≠ "div.foo" :=
  ⟨rfl, rfl, by decide⟩

/-- C3: whenever any failure indicator pattern matches the transcript, the
overall verdict of _determine_overall_success is failure, whatever step or
assertion results are present. -/
theorem C3_failure_keywords_dominate (step_results assertion_results : List Bool)
    (content : String) (h : failureIndicatorFound content = true) :
    _determine_overall_success step_results assertion_results content = false := by
  simp [_determine_overall_success, h]

theorem C3_failure_keywords_dominate_witness :
    _determine_overall_success [true] [] c3content = false :=
  C3_failure_keywords_dominate [true] [] c3content (by rfl)

/-- C4: evaluating _extract_step_from_gherkin at step index 0 of a
three-step scenario returns a sub-scenario that still contains the keyword
lines of the later steps (the continue skips the step counter increment, so
the break on a later step is unreachable). -/
theorem C4_subscenario_keeps_later_steps :
    _extract_step_from_gherkin c4gherkin 0
      = some "Feature: F\n\nScenario: S\n    Given a\n    When b\n    Then c" ∧
    containsSub "Feature: F\n\nScenario: S\n    Given a\n    When b\n    Then c" "When b"
      = true :=
  ⟨rfl, rfl⟩

/-- C5: with a brittle id(...) xpath whose first attempt fails, the generated
alternative that the page would resolve is never attempted and resolution
fails, because the try block wraps the alternative loop. -/
theorem C5_xpath_alternatives_unreachable :
    generate_stable_xpaths "id(login)" (some c5params)
      = ["//input[contains(@placeholder, 'Email')]"] ∧
    c5page "xpath=//input[contains(@placeholder, 'Email')]" 5000 = true ∧
    get_best_element_handle c5page "input[placeholder='Email']" (some c5params) 5000
      = Except.error (failureMessage "input[placeholder='Email']") :=
  ⟨rfl, rfl, rfl⟩

/-- C6 (amended): for every captured element descriptor with a truthy
data-testid attribute, the single best selector and the primary selector of
the multi-strategy bundle both select by that test id, whatever other
attributes are present; the compound-selector-string path does not share this
property (see the counterexample). -/
theorem C6_descriptor_testid_first (e : ElementData) (v : String)
    (h : attrsTruthy e.attributes "data-testid" = some v) :
    _get_element_selector (some e) = "[data-testid='" ++ v ++ "']" ∧
    (_generate_multi_strategy_selectors (some e)).primary
      = some ("[data-testid='" ++ v ++ "']") := by
  constructor
  · simp [_get_element_selector, h]
  · simp [_generate_multi_strategy_selectors, h]

theorem C6_descriptor_testid_first_witness :
    _get_element_selector (some c6elem) = "[data-testid='submit']" ∧
    (_generate_multi_strategy_selectors (some c6elem)).primary = some "[data-testid='submit']" :=
  C6_descriptor_testid_first c6elem "submit" (by rfl)

/-- C6 counterexample: a compound selector string carrying both an id and a
data-testid attribute is optimized to the id selector, and that id selector is
the first candidate the synthesizer emits, so the test-id candidate does not
outrank the id candidate on the string path. -/
theorem C6_counterexample :
    optimize_complex_selector "[id=\"x\"][data-testid=\"y\"]" none = some "#x" ∧
    (selectorsToTry "[id=\"x\"][data-testid=\"y\"]" none).head? = some "#x" ∧
    containsSub "#x" "data-testid" = false :=
  ⟨rfl, rfl, rfl⟩

/-- C7 (amended): the class filter of the utils synthesizer excludes exactly
the classes containing a state keyword: every class it keeps contains no
state keyword as a substring. Build-hash css- prefixes and short classes are
not excluded on this path (see the counterexample). -/
theorem C7_class_filter_state_keywords_only (s cls : String)
    (h : cls ∈ extract_stable_classes s) (kw : String) (hkw : kw ∈ stateKeywords) :
    containsSub (pyLower cls) kw = false := by
  unfold extract_stable_classes at h
  rcases List.mem_filter.mp h with ⟨_, hfilt⟩
  cases hcc : containsSub (pyLower cls) kw with
  | false => rfl
  | true =>
    exfalso
    have hany : stateKeywords.any (fun st => containsSub (pyLower cls) st) = true :=
      List.any_eq_true.mpr ⟨kw, hkw, hcc⟩
    rw [hany] at hfilt
    simp at hfilt

theorem C7_class_filter_state_keywords_only_witness :
    containsSub (pyLower "stable") "focus" = false :=
  C7_class_filter_state_keywords_only "div.stable.hover-x" "stable" (by decide) "focus" (by decide)

/-- C7 counterexample: a class with the css- build-hash prefix passes the
utils class filter and appears verbatim in the class-combination candidate. -/
theorem C7_counterexample :
    generate_stable_selectors "a.css-1a2b" none = ["a.css-1a2b"] ∧
    extract_stable_classes "a.css-1a2b" = ["css-1a2b"] ∧
    strStarts "css-1a2b" "css-" = true :=
  ⟨rfl, rfl, rfl⟩

/-- C8 (amended): when no per-step action or content matches a step and no
error entry is present, the positional default applies: with overall status
FAILED (from the final status indicators) the last step is FAILED and every
earlier step is PASSED; with overall status PASSED every step is PASSED.
Categorized error entries instead mark every unmarked step FAILED (see the
counterexample). -/
theorem C8_positional_default (gs : List String) (hd : HistoryData) (now : String) (i : ℕ)
    (h1 : hd.model_actions = []) (h2 : hd.errors = []) (h3 : i < gs.length) :
    ((_infer_step_results_from_actions gs hd now).map (fun s => s.status))[i]? =
      some (if "FAILED" ∈ hd.final_status_indicators ∧ i = gs.length - 1
            then "FAILED" else "PASSED") := by
  have hgs : gs[i]? = some (gs[i]) := List.getElem?_eq_getElem h3
  by_cases hc : "FAILED" ∈ hd.final_status_indicators <;>
    by_cases hi : i = gs.length - 1 <;>
      simp [_infer_step_results_from_actions, List.getElem?_map, List.getElem?_enum, hgs,
        inferStatusMsg, h1, h2, overallFailedB, hc, hi, mkStepInfo]
  all_goals
    rw [← hi]
    exact ⟨gs.get ⟨i, h3⟩, hgs⟩

theorem C8_positional_default_witness :
    ((_infer_step_results_from_actions c8gs c8hd "t").map (fun s => s.status))[0]?
      = some "PASSED" := by
  have h := C8_positional_default c8gs c8hd "t" 0 rfl rfl (by decide)
  simpa [c8hd, c8gs] using h

/-- C8 counterexample: a transcript with no step markers and no per-step
keyword matches whose errors list holds a categorized task-completion failure
marks every step FAILED, including the earlier ones the claim says default to
PASSED. -/
theorem C8_counterexample :
    ((extract_step_results c8hdC "Given a\nWhen b" "t").map (fun s => s.status))
      = ["FAILED", "FAILED"] ∧
    ((extract_step_results c8hdC "Given a\nWhen b" "t").map (fun s => s.status))
      ≠ ["PASSED", "FAILED"] :=
  ⟨rfl, by decide⟩

/-- C9 (amended): classification is deterministic up to the timestamp field:
for identical history data and gherkin text, runs at any two clock readings
agree on every step record once timestamps are cleared. -/
theorem C9_deterministic_up_to_timestamp (hd : HistoryData) (g t1 t2 : String) :
    (extract_step_results hd g t1).map stripTime
      = (extract_step_results hd g t2).map stripTime := by
  simp only [extract_step_results]
  split
  · exact strip_process_time _ _ _ _ _ _
  · exact strip_infer_time _ _ _ _

/-- C9 counterexample: two invocations of the classifier on identical
transcript and steps but at different clock readings produce records that are
not identical (the timestamp field differs). -/
theorem C9_counterexample :
    extract_step_results c9hd "Given a" "2024-01-01T00:00:00"
      ≠ extract_step_results c9hd "Given a" "2024-01-01T00:00:01" := by
  decide

/-- C10: a capture call with success = False returns no workflow document,
for every agent history. -/
theorem C10_unsuccessful_run_yields_no_workflow (h : AgentHistory) (test_name now : String) :
    create_workflow_from_browser_use h test_name false now = none := rfl
